import Mathlib

/-!
# Verification of the CSV-to-PDF order batch pipeline

Shallow embedding of the order-document batch generator
(`src/main.py`, with `src/main_backup.py` sharing `sanitize_filename`):

* a `Record` is one parsed CSV row: an association list from column name
  to cell value, looked up with default `""` as in the Python call
  `row.get(key, "")`;
* `sanitize_filename` replaces each character of `\/:*?"<>|` by `_`;
* `validate_csv` returns the required columns missing from the header,
  in required-list order;
* `generate_pdf_data` models the record transformation performed by
  `generate_pdf` (it stores the derived full name under `"Full Name"`);
* `processLoop` / `process_csv` model the worker `process_csv`:
  per-row cancellation check, progress report, filename derivation and
  render, with an explicit event trace, terminal status, and the final
  value of the global `stop_requested` flag.
-/

/-- A record: one parsed CSV row, as an association list from column
name to cell value (Python dict in insertion order). -/
def Record := List (String × String)

instance : DecidableEq Record := by
  unfold Record
  infer_instance

/-- `data.get(key, "")` followed by `str(...)`: lookup with default `""`. -/
def Record.get (r : Record) (k : String) : String :=
  (List.lookup k r).getD ""

/-- `row.get(key, d)` with an explicit default (used by the per-record
error message, whose default is `"Unknown"`). -/
def Record.getOr (r : Record) (k d : String) : String :=
  (List.lookup k r).getD d

/-- Python dict assignment `data[k] = v`: replace the value at the first
occurrence of `k`, or append `(k, v)` if `k` is absent. -/
def Record.set : Record → String → String → Record
  | [], k, v => [(k, v)]
  | (k', v') :: rest, k, v =>
      if k' = k then (k, v) :: rest else (k', v') :: Record.set rest k v

/-- Python `str.strip()`: remove leading and trailing whitespace. -/
def pyStrip (s : String) : String :=
  ⟨((s.data.dropWhile Char.isWhitespace).reverse.dropWhile Char.isWhitespace).reverse⟩

/-- The invalid filename characters `\/:*?"<>|` of `sanitize_filename`. -/
def invalidChars : List Char := ['\\', '/', ':', '*', '?', '\"', '<', '>', '|']

/-- One character of the `re.sub` character class replacement: an invalid
character becomes `_`, any other character is kept. -/
def sanitizeChar (c : Char) : Char :=
  if invalidChars.contains c then '_' else c

/-- `sanitize_filename`: replace every invalid filename character with an
underscore (the `re.sub` over the character class acts character-wise). -/
def sanitize_filename (filename : String) : String :=
  ⟨filename.data.map sanitizeChar⟩

/-- The fixed required-column list of `validate_csv` in `src/main.py`. -/
def required_columns : List String :=
  ["Order Number",
   "First Name (Billing)",
   "Last Name (Billing)",
   "Email (Billing)",
   "Phone (Billing)",
   "Item Name",
   "SKU",
   "Quantity (- Refund)",
   "Item Cost",
   "Order Total Amount"]

/-- `validate_csv`: the required columns absent from the header, in
required-list order (`[col for col in required_columns if col not in df.columns]`). -/
def validate_csv (columns : List String) : List String :=
  required_columns.filter (fun c => !(columns.contains c))

/-- The wording of the missing-columns error dialog in `process_csv`. -/
def missingColumnsMessage (missing : List String) : String :=
  "The CSV file is missing required columns: " ++ String.intercalate ", " missing
    ++ ".\nPlease correct the file and try again."

/-- The full-name derivation inside `generate_pdf`: the stripped billing
first name and the stripped billing last name joined by one space, the
result stripped again before being stored under the Full Name key. -/
def derive_full_name (data : Record) : String :=
  pyStrip (pyStrip (data.get "First Name (Billing)") ++ " "
    ++ pyStrip (data.get "Last Name (Billing)"))

/-- The record transformation performed by `generate_pdf` on its `data`
argument: `data["Full Name"] = full_name.strip()`. -/
def generate_pdf_data (data : Record) : Record :=
  data.set "Full Name" (derive_full_name data)

/-- The label/value extraction of `print_column_fields`:
for each `(label, key)` pair, the value is `str(data.get(key, "")).strip()`. -/
def print_column_fields_values (fields : List (String × String)) (data : Record) :
    List (String × String) :=
  fields.map (fun lk => (lk.1, pyStrip (data.get lk.2)))

/-- The left-column field mapping of `generate_pdf`. -/
def fields_col1 : List (String × String) :=
  [("Name", "Full Name"),
   ("Email", "Email (Billing)"),
   ("Phone", "Phone (Billing)"),
   ("Shipping Method Title", "Shipping Method Title"),
   ("City", "City (Billing)"),
   ("Address 1&2", "Address 1&2 (Billing)")]

/-- The right-column field mapping of `generate_pdf`. -/
def fields_col2 : List (String × String) :=
  [("Item Name", "Item Name"),
   ("SKU", "SKU"),
   ("Quantity", "Quantity (- Refund)"),
   ("Item Cost", "Item Cost"),
   ("Order Total Amount", "Order Total Amount")]

/-- The per-record output filename computed in the `process_csv` loop:
`sanitize_filename(f"{first_name} {last_name} {order_number}.pdf")` with
each component `str(row.get(..., "")).strip()`. -/
def derive_filename (row : Record) : String :=
  sanitize_filename
    (pyStrip (row.get "First Name (Billing)") ++ " "
      ++ pyStrip (row.get "Last Name (Billing)") ++ " "
      ++ pyStrip (row.get "Order Number") ++ ".pdf")

/-- Terminal status of a batch run. -/
inductive Status where
  | Completed
  | Canceled
  | Failed
  deriving DecidableEq, Repr

/-- Observable events of the worker loop, in program order:
the per-row cancellation check, the progress report
(`Processing record i+1/total`), the filename derivation, the render
attempt, and the per-record failure report naming the row lookup of
Order Number with default Unknown. -/
inductive Event where
  | cancelCheck (i : Nat) (observed : Bool)
  | progressReport (current total : Nat)
  | deriveName (i : Nat) (filename : String)
  | renderAttempt (i : Nat) (ok : Bool)
  | recordFailure (i : Nat) (orderNumber : String)
  deriving DecidableEq, Repr

/-- Result of the `for index, row in df.iterrows()` loop. -/
structure LoopResult where
  files : List String
  processedCount : Nat
  failedRecords : List Nat
  canceled : Bool
  trace : List Event
  deriving DecidableEq, Repr

/-- The worker loop of `process_csv`: at row `i`, first read the
`stop_requested` flag (`cancel i` is the value observed at that check);
if set, stop with no further work; otherwise report progress, derive the
filename, and render (`renderOk i` tells whether `generate_pdf` succeeds
for row `i`); a failed render is reported and skipped, and the loop
continues with the next row. -/
def processLoop (rows : List Record) (total : Nat) (renderOk : Nat → Bool)
    (cancel : Nat → Bool) (i : Nat) : LoopResult :=
  match rows with
  | [] => ⟨[], 0, [], false, []⟩
  | row :: rest =>
    if cancel i then
      ⟨[], 0, [], true, [Event.cancelCheck i true]⟩
    else
      let fname := derive_filename row
      let ok := renderOk i
      let tail := processLoop rest total renderOk cancel (i + 1)
      { files := if ok then fname :: tail.files else tail.files
        processedCount := tail.processedCount + 1
        failedRecords := if ok then tail.failedRecords else i :: tail.failedRecords
        canceled := tail.canceled
        trace :=
          Event.cancelCheck i false :: Event.progressReport (i + 1) total ::
          Event.deriveName i fname :: Event.renderAttempt i ok ::
          ((if ok then [] else [Event.recordFailure i (row.getOr "Order Number" "Unknown")])
            ++ tail.trace) }

/-- The input as `process_csv` sees it: either `pd.read_csv` raised, or
it produced a header (column list) and an ordered list of records. -/
inductive CsvInput where
  | readError
  | ok (columns : List String) (rows : List Record)

/-- Result of one `process_csv` run: terminal status, the error dialog
text if any, the output files written (in write order), the number of
rows processed, the indices of rows whose render failed, the event
trace, and the value of the global `stop_requested` flag when
`process_csv` returns (`flagAtReturn` is the value the flag holds at the
return point unless the function resets it). -/
structure BatchRun where
  status : Status
  errorMessage : Option String
  files : List String
  processedCount : Nat
  failedRecords : List Nat
  trace : List Event
  stopRequestedAfter : Bool
  deriving DecidableEq, Repr

/-- `process_csv`: on a read error, show the CSV error and return early
(no reset of `stop_requested`); on missing required columns, show the
validation error and return early (no reset); otherwise run the loop
over all rows and reset `stop_requested` to `False` at the end. -/
def process_csv (input : CsvInput) (renderOk : Nat → Bool) (cancel : Nat → Bool)
    (flagAtReturn : Bool) : BatchRun :=
  match input with
  | CsvInput.readError =>
      { status := Status.Failed
        errorMessage := some "Failed to read the CSV file."
        files := []
        processedCount := 0
        failedRecords := []
        trace := []
        stopRequestedAfter := flagAtReturn }
  | CsvInput.ok columns rows =>
      let missing := validate_csv columns
      if missing.isEmpty then
        let r := processLoop rows rows.length renderOk cancel 0
        { status := if r.canceled then Status.Canceled else Status.Completed
          errorMessage := none
          files := r.files
          processedCount := r.processedCount
          failedRecords := r.failedRecords
          trace := r.trace
          stopRequestedAfter := false }
      else
        { status := Status.Failed
          errorMessage := some (missingColumnsMessage missing)
          files := []
          processedCount := 0
          failedRecords := []
          trace := []
          stopRequestedAfter := flagAtReturn }

/-- `generate`: starting a new run executes `stop_requested = False`
before launching the worker, whatever the previous flag value was. -/
def run_start_flag (_previousFlag : Bool) : Bool :=
  false

/-- The output files expected from rows `i, i+1, ...` when no
cancellation occurs: one filename per row whose render succeeds. -/
def expectedFiles (rows : List Record) (renderOk : Nat → Bool) (i : Nat) :
    List String :=
  match rows with
  | [] => []
  | row :: rest =>
      if renderOk i then derive_filename row :: expectedFiles rest renderOk (i + 1)
      else expectedFiles rest renderOk (i + 1)

/-- The indices of rows whose render fails, among rows `i, i+1, ...`. -/
def expectedFailed (rows : List Record) (renderOk : Nat → Bool) (i : Nat) :
    List Nat :=
  match rows with
  | [] => []
  | _ :: rest =>
      if renderOk i then expectedFailed rest renderOk (i + 1)
      else i :: expectedFailed rest renderOk (i + 1)

/-! Helper lemmas about record update and the worker loop. -/

theorem lookup_set_self (r : Record) (k v : String) :
    List.lookup k (Record.set r k v) = some v := by
  induction r with
  | nil => simp [Record.set, List.lookup]
  | cons p rest ih =>
      obtain ⟨k', v'⟩ := p
      by_cases h : k' = k
      · subst h; simp [Record.set, List.lookup]
      · have hb : (k == k') = false := beq_eq_false_iff_ne.mpr (Ne.symm h)
        simp [Record.set, h, List.lookup, ih, hb]

theorem lookup_set_ne (r : Record) (k k' v : String) (h : k' ≠ k) :
    List.lookup k' (Record.set r k v) = List.lookup k' r := by
  have hb : (k' == k) = false := beq_eq_false_iff_ne.mpr h
  induction r with
  | nil => simp [Record.set, List.lookup, hb]
  | cons p rest ih =>
      obtain ⟨k₀, v₀⟩ := p
      by_cases h0 : k₀ = k
      · subst h0; simp [Record.set, List.lookup, hb]
      · simp [Record.set, h0, List.lookup, ih]

/-- The event trace of an uncanceled pass over rows `i, i+1, ...`:
for each row, the cancellation check (observing `false`), the progress
report, the filename derivation, the render attempt, and, when the
render fails, the per-record failure report. -/
def uncanceledTrace (rows : List Record) (total : Nat) (renderOk : Nat → Bool)
    (i : Nat) : List Event :=
  match rows with
  | [] => []
  | row :: rest =>
      Event.cancelCheck i false :: Event.progressReport (i + 1) total ::
      Event.deriveName i (derive_filename row) ::
      Event.renderAttempt i (renderOk i) ::
      ((if renderOk i then []
        else [Event.recordFailure i (row.getOr "Order Number" "Unknown")])
        ++ uncanceledTrace rest total renderOk (i + 1))

/-! Characterisation of the worker loop. -/

theorem processLoop_no_cancel (total : Nat) (renderOk cancel : Nat → Bool)
    (hcancel : ∀ j, cancel j = false) :
    ∀ (rows : List Record) (i : Nat),
      processLoop rows total renderOk cancel i =
        ⟨expectedFiles rows renderOk i, rows.length, expectedFailed rows renderOk i,
          false, uncanceledTrace rows total renderOk i⟩ := by
  intro rows
  induction rows with
  | nil => intro i; rfl
  | cons row rest ih =>
      intro i
      cases hr : renderOk i <;>
        simp [processLoop, hcancel i, ih (i + 1), expectedFiles, expectedFailed,
          uncanceledTrace, hr]

theorem processLoop_cancel (total : Nat) (renderOk cancel : Nat → Bool) :
    ∀ (k : Nat) (rows : List Record) (i : Nat), k < rows.length →
      (∀ j, j < k → cancel (i + j) = false) → cancel (i + k) = true →
      processLoop rows total renderOk cancel i =
        ⟨expectedFiles (rows.take k) renderOk i, k,
          expectedFailed (rows.take k) renderOk i, true,
          uncanceledTrace (rows.take k) total renderOk i
            ++ [Event.cancelCheck (i + k) true]⟩ := by
  intro k
  induction k with
  | zero =>
      intro rows i hk _ hat
      cases rows with
      | nil => simp at hk
      | cons row rest =>
          simp only [Nat.add_zero] at hat
          simp [processLoop, hat, expectedFiles, expectedFailed, uncanceledTrace]
  | succ k ih =>
      intro rows i hk hlt hat
      cases rows with
      | nil => simp at hk
      | cons row rest =>
          have h0 : cancel i = false := by
            have := hlt 0 (Nat.succ_pos k)
            simpa using this
          have hrest := ih rest (i + 1)
            (Nat.lt_of_succ_lt_succ (by simpa using hk))
            (fun j hj => by
              have h := hlt (j + 1) (by omega)
              have e : i + 1 + j = i + (j + 1) := by omega
              rw [e]; exact h)
            (by
              have e : i + 1 + k = i + (k + 1) := by omega
              rw [e]; exact hat)
          have hik : i + 1 + k = i + (k + 1) := by omega
          simp only [processLoop, h0, hrest, List.take_succ_cons, expectedFiles,
            expectedFailed, uncanceledTrace, Bool.false_eq_true, if_false]
          cases hr : renderOk i <;> simp [hr, hik]

theorem expectedFiles_all_ok (renderOk : Nat → Bool) (h : ∀ j, renderOk j = true) :
    ∀ (rows : List Record) (i : Nat),
      expectedFiles rows renderOk i = rows.map derive_filename := by
  intro rows
  induction rows with
  | nil => intro i; rfl
  | cons row rest ih => intro i; simp [expectedFiles, h i, ih]

theorem expectedFailed_all_ok (renderOk : Nat → Bool) (h : ∀ j, renderOk j = true) :
    ∀ (rows : List Record) (i : Nat), expectedFailed rows renderOk i = [] := by
  intro rows
  induction rows with
  | nil => intro i; rfl
  | cons row rest ih => intro i; simp [expectedFailed, h i, ih]

theorem recordFailure_mem_uncanceledTrace (total : Nat) (renderOk : Nat → Bool) :
    ∀ (rows : List Record) (j : Nat) (h : j < rows.length) (i : Nat),
      renderOk (i + j) = false →
      Event.recordFailure (i + j) ((rows.get ⟨j, h⟩).getOr "Order Number" "Unknown")
        ∈ uncanceledTrace rows total renderOk i := by
  intro rows
  induction rows with
  | nil => intro j h; simp at h
  | cons row rest ih =>
      intro j h i hfail
      cases j with
      | zero =>
          simp only [Nat.add_zero] at hfail
          simp [uncanceledTrace, hfail, List.get]
      | succ j =>
          have h' : j < rest.length := by
            have := h
            simp only [List.length_cons] at this
            omega
          have e : i + (j + 1) = i + 1 + j := by omega
          have hmem := ih j h' (i + 1) (by rw [← e]; exact hfail)
          rw [show ((row :: rest).get ⟨j + 1, h⟩) = rest.get ⟨j, h'⟩ from rfl]
          rw [e]
          simp only [uncanceledTrace, List.mem_cons, List.mem_append]
          exact Or.inr (Or.inr (Or.inr (Or.inr (Or.inr hmem))))

theorem derive_filename_mem_expectedFiles (renderOk : Nat → Bool) :
    ∀ (rows : List Record) (j : Nat) (h : j < rows.length) (i : Nat),
      renderOk (i + j) = true →
      derive_filename (rows.get ⟨j, h⟩) ∈ expectedFiles rows renderOk i := by
  intro rows
  induction rows with
  | nil => intro j h; simp at h
  | cons row rest ih =>
      intro j h i hok
      cases j with
      | zero =>
          simp only [Nat.add_zero] at hok
          simp [expectedFiles, hok, List.get]
      | succ j =>
          have h' : j < rest.length := by
            have := h
            simp only [List.length_cons] at this
            omega
          have e : i + (j + 1) = i + 1 + j := by omega
          have hmem := ih j h' (i + 1) (by rw [← e]; exact hok)
          rw [show ((row :: rest).get ⟨j + 1, h⟩) = rest.get ⟨j, h'⟩ from rfl]
          cases hr : renderOk i with
          | false => simpa [expectedFiles, hr] using hmem
          | true => simp [expectedFiles, hr]; right; exact hmem

theorem sanitizeChar_eq_ite_mem (c : Char) :
    sanitizeChar c = if c ∈ invalidChars then '_' else c := by
  by_cases h : c ∈ invalidChars
  · simp [sanitizeChar, List.elem_iff.mpr h, h]
  · have hb : invalidChars.contains c = false := by
      simpa using h
    simp [sanitizeChar, hb, h]

/-! Claims about the field mapper and the filename utilities. -/

/-- C5: for every record, the derived full name is the stripped
first-name field and the stripped last-name field joined by a single
space, with the result stripped again, so an empty first name leaves no
leading space (first = "", last = "Lee" yields "Lee"); the derivation is
deterministic: equal records yield equal strings. -/
theorem full_name_derivation :
    (∀ data : Record,
        (generate_pdf_data data).get "Full Name" =
          pyStrip (pyStrip (data.get "First Name (Billing)") ++ " "
            ++ pyStrip (data.get "Last Name (Billing)"))) ∧
    derive_full_name
        [("First Name (Billing)", ""), ("Last Name (Billing)", "Lee")] = "Lee" ∧
    (∀ d₁ d₂ : Record, d₁ = d₂ → derive_full_name d₁ = derive_full_name d₂) := by
  refine ⟨?_, by decide, ?_⟩
  · intro data
    unfold generate_pdf_data Record.get
    rw [lookup_set_self]
    rfl
  · intro d₁ d₂ h
    rw [h]

/-- Witness for C5 at concrete records. -/
theorem full_name_derivation_witness :
    (generate_pdf_data
        [("First Name (Billing)", " Jane "), ("Last Name (Billing)", "Doe")]).get
        "Full Name" = "Jane Doe" ∧
    derive_full_name [("Order Number", "1001")]
      = derive_full_name [("Order Number", "1001")] := by
  constructor
  · rw [full_name_derivation.1]
    decide
  · exact full_name_derivation.2.2 _ _ rfl

/-- C6: sanitization acts character by character: position `i` of the
output is an underscore when position `i` of the input is one of the
nine invalid filename characters, and the input character otherwise;
the length is preserved, and `A/B"C` sanitizes to `A_B_C`. -/
theorem sanitize_replaces_invalid :
    (∀ (s : String) (i : Nat),
        (sanitize_filename s).data[i]? =
          s.data[i]?.map (fun c => if c ∈ invalidChars then '_' else c)) ∧
    (∀ s : String, (sanitize_filename s).data.length = s.data.length) ∧
    sanitize_filename "A/B\"C" = "A_B_C" := by
  refine ⟨?_, ?_, by decide⟩
  · intro s i
    have : sanitizeChar = fun c => if c ∈ invalidChars then '_' else c :=
      funext sanitizeChar_eq_ite_mem
    simp [sanitize_filename, List.getElem?_map, this]
  · intro s
    simp [sanitize_filename]

/-- C8: field-value lookup is total with default empty string: an
absent key yields `""` in the record getter, in the label/value pairs
of `print_column_fields`, and in the full-name derivation (a record
missing both name columns derives the empty full name). -/
theorem absent_key_yields_empty :
    (∀ (r : Record) (k : String), List.lookup k r = none → r.get k = "") ∧
    (∀ (fields : List (String × String)) (r : Record) (label key : String),
        (label, key) ∈ fields → List.lookup key r = none →
        (label, "") ∈ print_column_fields_values fields r) ∧
    (∀ r : Record, List.lookup "First Name (Billing)" r = none →
        List.lookup "Last Name (Billing)" r = none → derive_full_name r = "") := by
  refine ⟨?_, ?_, ?_⟩
  · intro r k h
    simp [Record.get, h]
  · intro fields r label key hmem h
    have hv : pyStrip (r.get key) = "" := by
      simp [Record.get, h, pyStrip]
    have : (label, pyStrip (r.get key)) ∈ print_column_fields_values fields r := by
      simp only [print_column_fields_values, List.mem_map]
      exact ⟨(label, key), hmem, rfl⟩
    rwa [hv] at this
  · intro r h1 h2
    simp [derive_full_name, Record.get, h1, h2]
    decide

/-- Witness for C8 at a concrete record missing the looked-up keys. -/
theorem absent_key_yields_empty_witness :
    Record.get [("Order Number", "1001")] "Email (Billing)" = "" ∧
    ("Email", "") ∈
      print_column_fields_values fields_col1 [("Order Number", "1001")] ∧
    derive_full_name [("Order Number", "1001")] = "" := by
  refine ⟨absent_key_yields_empty.1 _ _ rfl,
    absent_key_yields_empty.2.1 fields_col1 _ "Email" "Email (Billing)" ?_ rfl,
    absent_key_yields_empty.2.2 _ rfl rfl⟩
  simp [fields_col1]

/-- C9 counterexample: rendering is not free of record mutation: on a
record without a Full Name key, `generate_pdf` adds one
(`data["Full Name"] = ...`), so the record is not left unchanged. -/
theorem render_mutates_record_counterexample :
    generate_pdf_data [("First Name (Billing)", "Jane")] ≠
      ([("First Name (Billing)", "Jane")] : Record) := by
  decide

/-- C9 (amended): rendering leaves every key other than `"Full Name"`
bound exactly as before (same presence, same cell value) and binds
`"Full Name"` to the derived full name; no other mutation occurs. -/
theorem render_preserves_other_keys (r : Record) (k : String)
    (h : k ≠ "Full Name") :
    List.lookup k (generate_pdf_data r) = List.lookup k r ∧
    List.lookup "Full Name" (generate_pdf_data r) = some (derive_full_name r) :=
  ⟨lookup_set_ne r "Full Name" k (derive_full_name r) h,
   lookup_set_self r "Full Name" (derive_full_name r)⟩

/-- Witness for C9 (amended) at a concrete record and key. -/
theorem render_preserves_other_keys_witness :
    List.lookup "Email (Billing)"
        (generate_pdf_data [("Email (Billing)", "a@b.c")]) =
      List.lookup "Email (Billing)" ([("Email (Billing)", "a@b.c")] : Record) ∧
    List.lookup "Full Name" (generate_pdf_data [("Email (Billing)", "a@b.c")]) =
      some (derive_full_name [("Email (Billing)", "a@b.c")]) :=
  render_preserves_other_keys [("Email (Billing)", "a@b.c")] "Email (Billing)"
    (by decide)

/-! Claims about the batch runner. -/

/-- C1: with the cancellation signal never set and every render
succeeding, a run over N rows writes exactly N output files, one per
row in input order, processes N rows, and terminates Completed; this
includes N = 0 (the empty input completes with zero files). -/
theorem batch_completes_all_records (columns : List String) (rows : List Record)
    (renderOk cancel : Nat → Bool) (flag : Bool)
    (hval : validate_csv columns = [])
    (hcancel : ∀ j, cancel j = false) (hrender : ∀ j, renderOk j = true) :
    (process_csv (CsvInput.ok columns rows) renderOk cancel flag).files
        = rows.map derive_filename ∧
    (process_csv (CsvInput.ok columns rows) renderOk cancel flag).files.length
        = rows.length ∧
    (process_csv (CsvInput.ok columns rows) renderOk cancel flag).processedCount
        = rows.length ∧
    (process_csv (CsvInput.ok columns rows) renderOk cancel flag).status
        = Status.Completed := by
  have hloop := processLoop_no_cancel rows.length renderOk cancel hcancel rows 0
  have hfiles := expectedFiles_all_ok renderOk hrender rows 0
  simp [process_csv, hval, hloop, hfiles]

/-- Witness for C1: a two-row run with required columns present,
no cancellation, and all renders succeeding. -/
theorem batch_completes_all_records_witness :
    (process_csv (CsvInput.ok required_columns
        [[("Order Number", "1001")], [("Order Number", "1002")]])
        (fun _ => true) (fun _ => false) false).files
      = ([[("Order Number", "1001")], [("Order Number", "1002")]] :
          List Record).map derive_filename ∧
    (process_csv (CsvInput.ok required_columns
        [[("Order Number", "1001")], [("Order Number", "1002")]])
        (fun _ => true) (fun _ => false) false).files.length = 2 ∧
    (process_csv (CsvInput.ok required_columns
        [[("Order Number", "1001")], [("Order Number", "1002")]])
        (fun _ => true) (fun _ => false) false).processedCount = 2 ∧
    (process_csv (CsvInput.ok required_columns
        [[("Order Number", "1001")], [("Order Number", "1002")]])
        (fun _ => true) (fun _ => false) false).status = Status.Completed :=
  batch_completes_all_records required_columns
    [[("Order Number", "1001")], [("Order Number", "1002")]]
    (fun _ => true) (fun _ => false) false rfl (fun _ => rfl) (fun _ => rfl)

/-- C2: with any required column missing from the header, the run fails
before processing any record: Failed status, zero output files, zero
rows processed, an empty trace, and the error dialog joins every
missing required column (each absent required column appears, and the
missing list keeps required-list order as a sublist of it); a read
error likewise fails the run with no output. -/
theorem validation_failure_aborts (columns : List String) (rows : List Record)
    (renderOk cancel : Nat → Bool) (flag : Bool)
    (hmiss : validate_csv columns ≠ []) :
    (process_csv (CsvInput.ok columns rows) renderOk cancel flag).status
        = Status.Failed ∧
    (process_csv (CsvInput.ok columns rows) renderOk cancel flag).files = [] ∧
    (process_csv (CsvInput.ok columns rows) renderOk cancel flag).processedCount
        = 0 ∧
    (process_csv (CsvInput.ok columns rows) renderOk cancel flag).trace = [] ∧
    (process_csv (CsvInput.ok columns rows) renderOk cancel flag).errorMessage
        = some (missingColumnsMessage (validate_csv columns)) ∧
    (∀ c ∈ required_columns, columns.contains c = false →
        c ∈ validate_csv columns) ∧
    List.Sublist (validate_csv columns) required_columns ∧
    (process_csv CsvInput.readError renderOk cancel flag).status = Status.Failed ∧
    (process_csv CsvInput.readError renderOk cancel flag).files = [] := by
  have hne : (validate_csv columns).isEmpty = false := by
    cases h : validate_csv columns with
    | nil => exact absurd h hmiss
    | cons a l => rfl
  have hrun : process_csv (CsvInput.ok columns rows) renderOk cancel flag =
      { status := Status.Failed
        errorMessage := some (missingColumnsMessage (validate_csv columns))
        files := []
        processedCount := 0
        failedRecords := []
        trace := []
        stopRequestedAfter := flag } := by
    simp [process_csv, hne]
  refine ⟨by rw [hrun], by rw [hrun], by rw [hrun], by rw [hrun], by rw [hrun],
    ?_, ?_, rfl, rfl⟩
  · intro c hc hnc
    have hcm : c ∉ columns := by simpa using hnc
    simp [validate_csv, List.mem_filter, hc, hcm]
  · exact List.filter_sublist required_columns

/-- Witness for C2: a header holding only the Item Name column. -/
theorem validation_failure_aborts_witness :
    (process_csv (CsvInput.ok ["Item Name"] [[("Item Name", "Widget")]])
        (fun _ => true) (fun _ => false) false).status = Status.Failed ∧
    (process_csv (CsvInput.ok ["Item Name"] [[("Item Name", "Widget")]])
        (fun _ => true) (fun _ => false) false).files = [] ∧
    "Order Number" ∈ validate_csv ["Item Name"] ∧
    List.Sublist (validate_csv ["Item Name"]) required_columns := by
  have h := validation_failure_aborts ["Item Name"] [[("Item Name", "Widget")]]
    (fun _ => true) (fun _ => false) false (by decide)
  exact ⟨h.1, h.2.1, h.2.2.2.2.2.1 "Order Number" (by decide) (by decide),
    h.2.2.2.2.2.2.1⟩

/-- C3: if the cancellation signal is first observed set at the check
before row k (0 ≤ k < N), with all renders succeeding, the run writes
exactly the first k files, processes exactly k rows, terminates
Canceled, and its trace is the per-row sequence
check-progress-derive-render for rows 0..k-1 followed by the final
check that observed the signal: nothing is processed afterwards, and
each cancellation check precedes that row's progress report, filename
derivation, and render. -/
theorem cancellation_stops_batch (columns : List String) (rows : List Record)
    (renderOk cancel : Nat → Bool) (flag : Bool) (k : Nat)
    (hval : validate_csv columns = []) (hk : k < rows.length)
    (hbefore : ∀ j, j < k → cancel j = false) (hat : cancel k = true)
    (hrender : ∀ j, renderOk j = true) :
    (process_csv (CsvInput.ok columns rows) renderOk cancel flag).files
        = (rows.take k).map derive_filename ∧
    (process_csv (CsvInput.ok columns rows) renderOk cancel flag).files.length
        = k ∧
    (process_csv (CsvInput.ok columns rows) renderOk cancel flag).processedCount
        = k ∧
    (process_csv (CsvInput.ok columns rows) renderOk cancel flag).status
        = Status.Canceled ∧
    (process_csv (CsvInput.ok columns rows) renderOk cancel flag).trace
        = uncanceledTrace (rows.take k) rows.length renderOk 0
            ++ [Event.cancelCheck k true] := by
  have hloop := processLoop_cancel rows.length renderOk cancel k rows 0 hk
    (fun j hj => by simpa using hbefore j hj) (by simpa using hat)
  have hfiles := expectedFiles_all_ok renderOk hrender (rows.take k) 0
  have hfailed := expectedFailed_all_ok renderOk hrender (rows.take k) 0
  have hlen : ((rows.take k).map derive_filename).length = k := by
    simp [List.length_take]
    omega
  simp [process_csv, hval, hloop, hfiles, hfailed, hlen]
  omega

/-- Witness for C3: a two-row run whose signal is observed at the
second check (k = 1). -/
theorem cancellation_stops_batch_witness :
    (process_csv (CsvInput.ok required_columns
        [[("Order Number", "1001")], [("Order Number", "1002")]])
        (fun _ => true) (fun j => !(j == 0)) false).files
      = (([[("Order Number", "1001")], [("Order Number", "1002")]] :
          List Record).take 1).map derive_filename ∧
    (process_csv (CsvInput.ok required_columns
        [[("Order Number", "1001")], [("Order Number", "1002")]])
        (fun _ => true) (fun j => !(j == 0)) false).files.length = 1 ∧
    (process_csv (CsvInput.ok required_columns
        [[("Order Number", "1001")], [("Order Number", "1002")]])
        (fun _ => true) (fun j => !(j == 0)) false).processedCount = 1 ∧
    (process_csv (CsvInput.ok required_columns
        [[("Order Number", "1001")], [("Order Number", "1002")]])
        (fun _ => true) (fun j => !(j == 0)) false).status = Status.Canceled ∧
    (process_csv (CsvInput.ok required_columns
        [[("Order Number", "1001")], [("Order Number", "1002")]])
        (fun _ => true) (fun j => !(j == 0)) false).trace
      = uncanceledTrace
          (([[("Order Number", "1001")], [("Order Number", "1002")]] :
            List Record).take 1) 2 (fun _ => true) 0
          ++ [Event.cancelCheck 1 true] :=
  cancellation_stops_batch required_columns
    [[("Order Number", "1001")], [("Order Number", "1002")]]
    (fun _ => true) (fun j => !(j == 0)) false 1 rfl (by decide)
    (fun j hj => by
      have hj0 : j = 0 := Nat.lt_one_iff.mp hj
      subst hj0
      rfl)
    rfl (fun _ => rfl)

/-- C4: with no cancellation, render failures are local: the run still
terminates Completed with every row processed; the files are exactly
those of the rows whose render succeeded, the failed rows are collected,
the trace is the full uncanceled pass, every failing row contributes a
failure report naming its order-number value, and every non-failing row
still contributes its output file. -/
theorem render_failure_skips_record (columns : List String) (rows : List Record)
    (renderOk cancel : Nat → Bool) (flag : Bool)
    (hval : validate_csv columns = [])
    (hcancel : ∀ j, cancel j = false) :
    (process_csv (CsvInput.ok columns rows) renderOk cancel flag).status
        = Status.Completed ∧
    (process_csv (CsvInput.ok columns rows) renderOk cancel flag).processedCount
        = rows.length ∧
    (process_csv (CsvInput.ok columns rows) renderOk cancel flag).files
        = expectedFiles rows renderOk 0 ∧
    (process_csv (CsvInput.ok columns rows) renderOk cancel flag).failedRecords
        = expectedFailed rows renderOk 0 ∧
    (process_csv (CsvInput.ok columns rows) renderOk cancel flag).trace
        = uncanceledTrace rows rows.length renderOk 0 ∧
    (∀ (j : Nat) (h : j < rows.length), renderOk j = false →
        Event.recordFailure j ((rows.get ⟨j, h⟩).getOr "Order Number" "Unknown")
          ∈ (process_csv (CsvInput.ok columns rows) renderOk cancel flag).trace) ∧
    (∀ (j : Nat) (h : j < rows.length), renderOk j = true →
        derive_filename (rows.get ⟨j, h⟩)
          ∈ (process_csv (CsvInput.ok columns rows) renderOk cancel flag).files) := by
  have hloop := processLoop_no_cancel rows.length renderOk cancel hcancel rows 0
  have hrun : (process_csv (CsvInput.ok columns rows) renderOk cancel flag).trace
      = uncanceledTrace rows rows.length renderOk 0 := by
    simp [process_csv, hval, hloop]
  have hfilesrun : (process_csv (CsvInput.ok columns rows) renderOk cancel
      flag).files = expectedFiles rows renderOk 0 := by
    simp [process_csv, hval, hloop]
  refine ⟨by simp [process_csv, hval, hloop], by simp [process_csv, hval, hloop],
    hfilesrun, by simp [process_csv, hval, hloop], hrun, ?_, ?_⟩
  · intro j h hfail
    rw [hrun]
    have := recordFailure_mem_uncanceledTrace rows.length renderOk rows j h 0
      (by simpa using hfail)
    simpa using this
  · intro j h hok
    rw [hfilesrun]
    have := derive_filename_mem_expectedFiles renderOk rows j h 0
      (by simpa using hok)
    simpa using this

/-- Witness for C4: a two-row run whose first render fails and whose
second succeeds. -/
theorem render_failure_skips_record_witness :
    (process_csv (CsvInput.ok required_columns
        [[("Order Number", "1001")], [("Order Number", "1002")]])
        (fun j => !(j == 0)) (fun _ => false) false).status
      = Status.Completed ∧
    (process_csv (CsvInput.ok required_columns
        [[("Order Number", "1001")], [("Order Number", "1002")]])
        (fun j => !(j == 0)) (fun _ => false) false).processedCount = 2 ∧
    Event.recordFailure 0
        (Record.getOr [("Order Number", "1001")] "Order Number" "Unknown")
      ∈ (process_csv (CsvInput.ok required_columns
          [[("Order Number", "1001")], [("Order Number", "1002")]])
          (fun j => !(j == 0)) (fun _ => false) false).trace ∧
    derive_filename [("Order Number", "1002")]
      ∈ (process_csv (CsvInput.ok required_columns
          [[("Order Number", "1001")], [("Order Number", "1002")]])
          (fun j => !(j == 0)) (fun _ => false) false).files := by
  have h := render_failure_skips_record required_columns
    [[("Order Number", "1001")], [("Order Number", "1002")]]
    (fun j => !(j == 0)) (fun _ => false) false rfl (fun _ => rfl)
  exact ⟨h.1, h.2.1, h.2.2.2.2.2.1 0 (by decide) rfl,
    h.2.2.2.2.2.2 1 (by decide) rfl⟩

/-- C7 counterexample: the claimed component order (order number first,
then first name, then last name) disagrees with the loop, which joins
first name, last name, then order number: on a record with order
number 7 and name A B the filenames differ. -/
theorem filename_order_counterexample :
    derive_filename
        [("Order Number", "7"), ("First Name (Billing)", "A"),
         ("Last Name (Billing)", "B")] ≠
      sanitize_filename ("7" ++ " " ++ "A" ++ " " ++ "B" ++ ".pdf") := by
  decide

/-- C7 (amended): every output filename of an uncanceled, failure-free
run is the sanitized join of the stripped billing first name, the
stripped billing last name, and the stripped order number, in that
order, separated by single spaces, with the pdf suffix appended before
sanitization. -/
theorem filenames_join_name_then_order (columns : List String) (rows : List Record)
    (renderOk cancel : Nat → Bool) (flag : Bool)
    (hval : validate_csv columns = [])
    (hcancel : ∀ j, cancel j = false) (hrender : ∀ j, renderOk j = true) :
    (process_csv (CsvInput.ok columns rows) renderOk cancel flag).files =
      rows.map (fun row =>
        sanitize_filename
          (pyStrip (row.get "First Name (Billing)") ++ " "
            ++ pyStrip (row.get "Last Name (Billing)") ++ " "
            ++ pyStrip (row.get "Order Number") ++ ".pdf")) := by
  have hloop := processLoop_no_cancel rows.length renderOk cancel hcancel rows 0
  have hfiles := expectedFiles_all_ok renderOk hrender rows 0
  simp [process_csv, hval, hloop, hfiles, derive_filename]

/-- Witness for C7 (amended) on a one-row run. -/
theorem filenames_join_name_then_order_witness :
    (process_csv (CsvInput.ok required_columns
        [[("Order Number", "7"), ("First Name (Billing)", "A"),
          ("Last Name (Billing)", "B")]])
        (fun _ => true) (fun _ => false) false).files =
      ([[("Order Number", "7"), ("First Name (Billing)", "A"),
         ("Last Name (Billing)", "B")]] : List Record).map (fun row =>
        sanitize_filename
          (pyStrip (row.get "First Name (Billing)") ++ " "
            ++ pyStrip (row.get "Last Name (Billing)") ++ " "
            ++ pyStrip (row.get "Order Number") ++ ".pdf")) :=
  filenames_join_name_then_order required_columns
    [[("Order Number", "7"), ("First Name (Billing)", "A"),
      ("Last Name (Billing)", "B")]]
    (fun _ => true) (fun _ => false) false rfl (fun _ => rfl) (fun _ => rfl)

/-- C10 counterexample: a run that fails reading the input returns with
the cancellation flag still set: the read-error early return skips the
reset of the global flag. -/
theorem stale_flag_counterexample :
    (process_csv CsvInput.readError (fun _ => true) (fun _ => true)
        true).stopRequestedAfter ≠ false := by
  decide

/-- C10 (amended): a run that reaches the processing loop (and so ends
Completed or Canceled) resets the cancellation flag to false before
returning; the read-failure and validation-failure early returns leave
the flag unchanged; and starting a new run always clears the flag
first, so no run begins with a stale cancellation request. -/
theorem flag_reset_after_loop (columns : List String) (rows : List Record)
    (renderOk cancel : Nat → Bool) (flag : Bool)
    (hval : validate_csv columns = []) :
    (process_csv (CsvInput.ok columns rows) renderOk cancel
        flag).stopRequestedAfter = false ∧
    (process_csv CsvInput.readError renderOk cancel flag).stopRequestedAfter
        = flag ∧
    (∀ cols : List String, validate_csv cols ≠ [] →
        (process_csv (CsvInput.ok cols rows) renderOk cancel
          flag).stopRequestedAfter = flag) ∧
    (∀ prev : Bool, run_start_flag prev = false) := by
  refine ⟨by simp [process_csv, hval], rfl, ?_, fun _ => rfl⟩
  intro cols h
  have hne : (validate_csv cols).isEmpty = false := by
    cases hc : validate_csv cols with
    | nil => exact absurd hc h
    | cons a l => rfl
  simp [process_csv, hne]

/-- Witness for C10 (amended) with the flag still set at return time. -/
theorem flag_reset_after_loop_witness :
    (process_csv (CsvInput.ok required_columns [[("Order Number", "1001")]])
        (fun _ => true) (fun _ => false) true).stopRequestedAfter = false ∧
    (process_csv CsvInput.readError (fun _ => true) (fun _ => false)
        true).stopRequestedAfter = true ∧
    (process_csv (CsvInput.ok [] [[("Order Number", "1001")]])
        (fun _ => true) (fun _ => false) true).stopRequestedAfter = true ∧
    run_start_flag true = false := by
  have h := flag_reset_after_loop required_columns [[("Order Number", "1001")]]
    (fun _ => true) (fun _ => false) true rfl
  exact ⟨h.1, h.2.1, h.2.2.1 [] (by decide), h.2.2.2 true⟩
